import Mathlib

/-!
Verification of the heimdall DOM-to-LLM serialization and interaction core.

This development shallowly embeds the relevant Python code:

* `src/heimdall/dom/service.py` — `DomService._build_tree`, `DOMNode`
  (`is_interactive`, `is_visible`, `stable_hash`), `SelectorGenerator.generate`,
  `DOMSerializer.serialize` / `_describe_node`, `SerializedDOM`;
* `src/heimdall/tools/actions.py` — `with_retry`, `click`, `type_text`,
  `hover`, `select_option`, `focus`;
* `src/heimdall/tools/registry.py` — `ActionResult`;
* `src/heimdall/browser/element.py` — `Element.click`,
  `Element._find_best_click_point`, `Element._check_pointer_events`.

Python floats are embedded as rationals, Python dicts as insertion-ordered
association lists, Python `hashlib.sha256` as a byte-level SHA-256 over `Nat`,
and the CDP environment touched by `Element.click` as a record of oracles so
that the method's control flow becomes a pure function producing a step trace.
-/

namespace Heimdall

/-! ## Python string and dict primitives -/

/-- Python `str.lower()` (ASCII range, which covers every string these
functions are applied to). -/
def pyLower (s : String) : String := String.mk (s.data.map Char.toLower)

/-- Python `str.upper()` (ASCII range). -/
def pyUpper (s : String) : String := String.mk (s.data.map Char.toUpper)

/-- Whether `needle` occurs as a contiguous sublist of `hay`, scanning
left to right. -/
def listContainsSub (hay needle : List Char) : Bool :=
  match hay with
  | [] => needle.isEmpty
  | _ :: t => needle.isPrefixOf hay || listContainsSub t needle

/-- Python `needle in hay` on strings. -/
def pyIn (needle hay : String) : Bool := listContainsSub hay.data needle.data

/-- Python `d.get(k)` on an insertion-ordered dict represented as an
association list (keys unique in every dict the source builds). -/
def pyGet {α : Type} (d : List (String × α)) (k : String) : Option α :=
  match d with
  | [] => none
  | (k0, v) :: rest => if k0 = k then some v else pyGet rest k

/-- Python `d.get(k, dflt)`. -/
def pyGetD {α : Type} (d : List (String × α)) (k : String) (dflt : α) : α :=
  (pyGet d k).getD dflt

/-- Python `k in d` on a dict. -/
def pyHasKey {α : Type} (d : List (String × α)) (k : String) : Bool :=
  (pyGet d k).isSome

/-- Python `d[k] = v` on an insertion-ordered dict: overwrite in place when
the key exists, else append. -/
def pyDictInsert {α : Type} (d : List (String × α)) (k : String) (v : α) :
    List (String × α) :=
  if pyHasKey d k then
    d.map (fun p => if p.1 = k then (k, v) else p)
  else
    d ++ [(k, v)]

/-- Python whitespace (the characters `str.split()` splits on). -/
def isPyWhitespace (c : Char) : Bool :=
  c = ' ' || c = '\t' || c = '\n' || c = '\r' ||
  c = Char.ofNat 11 || c = Char.ofNat 12

/-- Accumulator pass of `pySplitWs`: split a char list at whitespace,
dropping empty pieces; `acc` holds the current token reversed. -/
def splitWsGo : List Char → List Char → List String
  | acc, [] => if acc.isEmpty then [] else [String.mk acc.reverse]
  | acc, c :: rest =>
      if isPyWhitespace c then
        if acc.isEmpty then splitWsGo [] rest
        else String.mk acc.reverse :: splitWsGo [] rest
      else splitWsGo (c :: acc) rest

/-- Python `str.split()` with no argument: split on whitespace runs,
discarding empty pieces. -/
def pySplitWs (s : String) : List String := splitWsGo [] s.data

/-- Python string `<`: lexicographic by code point. -/
def charListLt : List Char → List Char → Bool
  | [], [] => false
  | [], _ :: _ => true
  | _ :: _, [] => false
  | a :: as, b :: bs => if a < b then true else if b < a then false else charListLt as bs

/-- Python string `<=`. -/
def pyStrLe (a b : String) : Bool := !charListLt b.data a.data

/-- Insert into a list sorted by `le`, after existing equal elements
(matching the stability of Python `sorted`). -/
def insertLe {α : Type} (le : α → α → Bool) (x : α) : List α → List α
  | [] => [x]
  | y :: ys => if le y x then y :: insertLe le x ys else x :: y :: ys

/-- Insertion sort by `le`. -/
def sortLe {α : Type} (le : α → α → Bool) : List α → List α
  | [] => []
  | x :: xs => insertLe le x (sortLe le xs)

/-- Python `sorted` on a list of strings. -/
def pySortedStrings (l : List String) : List String := sortLe pyStrLe l

/-- Ordering used by Python `sorted` on `(key, value)` string pairs:
lexicographic on the pair. -/
def pairLe (a b : String × String) : Bool :=
  if a.1 = b.1 then pyStrLe a.2 b.2 else charListLt a.1.data b.1.data

/-- Python `sorted(d.items())`. -/
def pySortedPairs (l : List (String × String)) : List (String × String) :=
  sortLe pairLe l

/-- Python `int()` applied to a float: truncation toward zero. -/
def ratTrunc (x : ℚ) : ℤ := if x < 0 then -Int.floor (-x) else Int.floor x

/-- Python `str.rstrip("/")`. -/
def pyRstripSlash (s : String) : String :=
  String.mk (s.data.reverse.dropWhile (fun c => c = '/')).reverse

/-- Chars before the first occurrence of `sep`, or all of them when `sep`
does not occur. -/
def takeUntilSub (sep : List Char) : List Char → List Char
  | [] => []
  | c :: rest =>
      if sep.isPrefixOf (c :: rest) then [] else c :: takeUntilSub sep rest

/-- Python `s.split(sep)[0]` for non-empty `sep`: the prefix before the
first occurrence of `sep`, or the whole string when `sep` does not occur. -/
def pySplitFirst (s : String) (sep : String) : String :=
  String.mk (takeUntilSub sep.data s.data)

/-- Python `s[:k]`. -/
def pyTake (s : String) (k : Nat) : String := String.mk (s.data.take k)

/-! ## `hashlib.sha256` as a byte-level SHA-256 over `Nat`

`DOMNode.stable_hash` ends in
`int(hashlib.sha256(str(hash_components).encode("utf-8")).hexdigest(), 16)`;
this is that composite: UTF-8 bytes of the Python `str()` rendering, hashed,
read back as the big-endian digest integer. -/

/-- 32-bit wraparound. -/
def w32 (n : Nat) : Nat := n % 4294967296

/-- Rotate a 32-bit word right by `k`. -/
def rotr (k n : Nat) : Nat := w32 ((n >>> k) ||| (n <<< (32 - k)))

/-- The SHA-256 round constants (FIPS 180-4, written in decimal). -/
def shaK : List Nat :=
  [1116352408, 1899447441, 3049323471, 3921009573, 961987163,
   1508970993, 2453635748, 2870763221, 3624381080, 310598401,
   607225278, 1426881987, 1925078388, 2162078206, 2614888103,
   3248222580, 3835390401, 4022224774, 264347078, 604807628,
   770255983, 1249150122, 1555081692, 1996064986, 2554220882,
   2821834349, 2952996808, 3210313671, 3336571891, 3584528711,
   113926993, 338241895, 666307205, 773529912, 1294757372,
   1396182291, 1695183700, 1986661051, 2177026350, 2456956037,
   2730485921, 2820302411, 3259730800, 3345764771, 3516065817,
   3600352804, 4094571909, 275423344, 430227734, 506948616,
   659060556, 883997877, 958139571, 1322822218, 1537002063,
   1747873779, 1955562222, 2024104815, 2227730452, 2361852424,
   2428436474, 2756734187, 3204031479, 3329325298]

/-- The SHA-256 initial hash value (FIPS 180-4, written in decimal). -/
def shaH0 : List Nat :=
  [1779033703, 3144134277, 1013904242, 2773480762,
   1359893119, 2600822924, 528734635, 1541459225]

/-- Big-endian byte expansion, `k` bytes. -/
def toBytesBE : Nat → Nat → List Nat
  | 0, _ => []
  | k + 1, n => toBytesBE k (n / 256) ++ [n % 256]

/-- Group bytes into big-endian 32-bit words. -/
def bytesToWords : List Nat → List Nat
  | a :: b :: c :: d :: rest =>
      (a * 16777216 + b * 65536 + c * 256 + d) :: bytesToWords rest
  | _ => []

/-- Extend a 16-word block to the 64-word message schedule. -/
def extendSchedule : Nat → List Nat → List Nat
  | 0, ws => ws
  | k + 1, ws =>
      let i := ws.length
      let x15 := ws.getD (i - 15) 0
      let x2 := ws.getD (i - 2) 0
      let s0 := rotr 7 x15 ^^^ rotr 18 x15 ^^^ (x15 >>> 3)
      let s1 := rotr 17 x2 ^^^ rotr 19 x2 ^^^ (x2 >>> 10)
      extendSchedule k (ws ++ [w32 (ws.getD (i - 16) 0 + s0 + ws.getD (i - 7) 0 + s1)])

/-- One SHA-256 compression round. -/
def compressRound (st : List Nat) (kw : Nat × Nat) : List Nat :=
  match st with
  | [a, b, c, d, e, f, g, h] =>
      let S1 := rotr 6 e ^^^ rotr 11 e ^^^ rotr 25 e
      let ch := (e &&& f) ^^^ ((e ^^^ 4294967295) &&& g)
      let temp1 := w32 (h + S1 + ch + kw.1 + kw.2)
      let S0 := rotr 2 a ^^^ rotr 13 a ^^^ rotr 22 a
      let maj := (a &&& b) ^^^ (a &&& c) ^^^ (b &&& c)
      let temp2 := w32 (S0 + maj)
      [w32 (temp1 + temp2), a, b, c, w32 (d + temp1), e, f, g]
  | _ => st

/-- Compress one 64-byte block into the running hash state. -/
def compressBlock (H : List Nat) (block : List Nat) : List Nat :=
  let ws := extendSchedule 48 (bytesToWords block)
  let st := (shaK.zip ws).foldl compressRound H
  (H.zip st).map (fun p => w32 (p.1 + p.2))

/-- Split a padded message into its 64-byte blocks. -/
def sha256Blocks (bytes : List Nat) : List (List Nat) :=
  (List.range (bytes.length / 64)).map (fun i => (bytes.drop (64 * i)).take 64)

/-- SHA-256 of a byte list, as the big-endian digest integer (the value of
`int(hexdigest, 16)` in the source). -/
def sha256Nat (msg : List Nat) : Nat :=
  let L := msg.length
  let padded := msg ++ [0x80] ++ List.replicate ((119 - (L % 64)) % 64) 0
      ++ toBytesBE 8 ((8 * L) % 18446744073709551616)
  let Hf := (sha256Blocks padded).foldl compressBlock shaH0
  Hf.foldl (fun acc w => acc * 4294967296 + w) 0

/-- UTF-8 encoding of one code point (Python `str.encode("utf-8")`,
per character). -/
def utf8Bytes (c : Char) : List Nat :=
  let n := c.toNat
  if n < 0x80 then [n]
  else if n < 0x800 then [0xC0 + n / 64, 0x80 + n % 64]
  else if n < 0x10000 then
    [0xE0 + n / 4096, 0x80 + (n / 64) % 64, 0x80 + n % 64]
  else
    [0xF0 + n / 262144, 0x80 + (n / 4096) % 64, 0x80 + (n / 64) % 64, 0x80 + n % 64]

/-- Python `s.encode("utf-8")` as a byte list. -/
def strBytes (s : String) : List Nat := s.data.flatMap utf8Bytes

/-! ## Python `str()`/`repr()` of the hash-component tuple -/

/-- Hex rendering of one byte, lowercase, two digits. -/
def hexByte (n : Nat) : String :=
  let dig := fun (k : Nat) =>
    String.singleton (if k < 10 then Char.ofNat (48 + k) else Char.ofNat (87 + k))
  dig (n / 16 % 16) ++ dig (n % 16)

/-- Python `repr` of one character inside a string literal quoted by `q`. -/
def pyReprChar (q : Char) (c : Char) : String :=
  if c = '\\' then "\\\\"
  else if c = q then "\\" ++ String.singleton q
  else if c = '\n' then "\\n"
  else if c = '\r' then "\\r"
  else if c = '\t' then "\\t"
  else if c.toNat < 32 || c.toNat = 127 then "\\x" ++ hexByte c.toNat
  else String.singleton c

/-- Python `repr` of a string: single-quoted unless the string contains a
single quote and no double quote. -/
def pyReprStr (s : String) : String :=
  let q : Char := if s.data.contains '\'' && !s.data.contains '"' then '"' else '\''
  String.singleton q ++ String.join (s.data.map (pyReprChar q)) ++ String.singleton q

/-- Python `repr` of a `(key, value)` string pair. -/
def pyReprPair (p : String × String) : String :=
  "(" ++ pyReprStr p.1 ++ ", " ++ pyReprStr p.2 ++ ")"

/-- Python `repr` of a tuple of string pairs (note the trailing comma of a
one-element tuple). -/
def pyReprPairTuple (ps : List (String × String)) : String :=
  match ps with
  | [] => "()"
  | [p] => "(" ++ pyReprPair p ++ ",)"
  | _ => "(" ++ String.intercalate ", " (ps.map pyReprPair) ++ ")"

/-- Python `str(hash_components)` for the triple
`(node_name, tuple(sorted(stable_attrs.items())), ax_role)`. -/
def pyReprComponents (nodeName : String) (attrs : List (String × String))
    (axRole : String) : String :=
  "(" ++ pyReprStr nodeName ++ ", " ++ pyReprPairTuple attrs ++ ", "
    ++ pyReprStr axRole ++ ")"

/-! ## `DOMNode` (dom/service.py) -/

/-- Enhanced DOM node with AX and layout info; `bounding_box` is the optional
Python dict `{x, y, width, height}` of floats. -/
structure DOMNode where
  backend_node_id : Int
  node_name : String
  attributes : List (String × String)
  bounding_box : Option (List (String × ℚ))
  ax_name : String
  ax_role : String
  parent_index : Int
deriving DecidableEq, Repr

/-- The fixed interactive HTML tag set of `DOMNode.is_interactive`. -/
def interactiveTags : List String :=
  ["A", "BUTTON", "INPUT", "SELECT", "TEXTAREA", "LABEL", "DETAILS",
   "SUMMARY", "OPTION", "OPTGROUP"]

/-- The fixed interactive ARIA role set of `DOMNode.is_interactive`. -/
def interactiveRoles : List String :=
  ["button", "link", "menuitem", "option", "radio", "checkbox", "tab",
   "textbox", "combobox", "slider", "spinbutton", "search", "searchbox",
   "listbox", "switch", "treeitem"]

/-- The event-handler attribute names checked by `DOMNode.is_interactive`. -/
def eventHandlerAttrs : List String :=
  ["onclick", "onmousedown", "onmouseup", "onkeydown", "onkeyup"]

/-- `DOMNode.is_interactive`: interactive tag, AX role, `role` attribute,
`contenteditable`, event-handler attribute, `tabindex`, or a
cursor-pointer inline style. -/
def DOMNode.is_interactive (n : DOMNode) : Bool :=
  if interactiveTags.contains (pyUpper n.node_name) then true
  else if interactiveRoles.contains n.ax_role then true
  else if !n.attributes.isEmpty then
    let role := pyGetD n.attributes "role" ""
    if interactiveRoles.contains role then true
    else
      let ce := pyGetD n.attributes "contenteditable" ""
      if ce != "" && pyLower ce != "false" && pyLower ce != "" then true
      else if eventHandlerAttrs.any (fun a => pyHasKey n.attributes a) then true
      else if pyHasKey n.attributes "tabindex" then true
      else
        let style := pyGetD n.attributes "style" ""
        pyIn "cursor" style && pyIn "pointer" style
  else false

/-- `DOMNode.is_visible`: a present (and, dict-truthiness, non-empty)
bounding box whose width and height are both positive. -/
def DOMNode.is_visible (n : DOMNode) : Bool :=
  match n.bounding_box with
  | none => false
  | some bbox =>
      if bbox.isEmpty then false
      else decide (pyGetD bbox "width" 0 > 0) && decide (pyGetD bbox "height" 0 > 0)

/-- The fixed dynamic class patterns filtered out by `DOMNode.stable_hash`. -/
def dynamicPatterns : List String :=
  ["focus", "hover", "active", "selected", "disabled", "animation",
   "transition", "loading", "open", "closed", "expanded", "collapsed",
   "visible", "hidden", "pressed", "checked", "highlighted", "current",
   "entering", "leaving"]

/-- Whether a class token matches some dynamic pattern
(`any(pattern in c.lower() for pattern in dynamic_patterns)`). -/
def isDynamicClassToken (c : String) : Bool :=
  dynamicPatterns.any (fun p => pyIn p (pyLower c))

/-- The filtered, sorted, re-joined class string of `DOMNode.stable_hash`. -/
def stableClassStr (classStr : String) : String :=
  if classStr != "" then
    let classes := pySplitWs classStr
    let stable := classes.filter (fun c => !isDynamicClassToken c)
    String.intercalate " " (pySortedStrings stable)
  else ""

/-- The stable attribute dict of `DOMNode.stable_hash`: `class` replaced by
its filtered form, `style` dropped, everything else kept. -/
def stableAttrs (n : DOMNode) : List (String × String) :=
  let scs := stableClassStr (pyGetD n.attributes "class" "")
  n.attributes.filterMap (fun kv =>
    if kv.1 = "class" then some ("class", scs)
    else if kv.1 = "style" then none
    else some kv)

/-- `str(hash_components)` for a node: the Python rendering of
`(node_name, tuple(sorted(stable_attrs.items())), ax_role)`. -/
def DOMNode.hashComponentsStr (n : DOMNode) : String :=
  pyReprComponents n.node_name (pySortedPairs (stableAttrs n)) n.ax_role

/-- `DOMNode.stable_hash`: SHA-256 over the UTF-8 bytes of the component
string, as the digest integer. -/
def DOMNode.stable_hash (n : DOMNode) : Nat :=
  sha256Nat (strBytes n.hashComponentsStr)

/-! ## `SelectorGenerator` (dom/service.py) -/

/-- One conditional attribute-based selector entry: emitted when the source
attribute is present and non-empty (Python truthiness of `.get(key)`). -/
def optEntry (attrs : List (String × String)) (key kind pre post : String) :
    List (String × String) :=
  match pyGet attrs key with
  | some v => if v != "" then [(kind, pre ++ v ++ post)] else []
  | none => []

/-- The `@key='value'` pieces of the combined XPath selector. -/
def xpathAttrParts (attrs : List (String × String)) : List String :=
  ["id", "name", "data-testid"].filterMap (fun k =>
    match pyGet attrs k with
    | some v => if v != "" then some ("@" ++ k ++ "=\x27" ++ v ++ "\x27") else none
    | none => none)

/-- The query-stripped href used by the anchor selectors:
`href.split("?")[0].rstrip("/")`. -/
def stripHref (h : String) : String := pyRstripSlash (pySplitFirst h "?")

/-- `SelectorGenerator.generate`: the selector dict, in insertion order. -/
def SelectorGenerator.generate (n : DOMNode) : List (String × String) :=
  optEntry n.attributes "id" "css_id" "#" "" ++
  optEntry n.attributes "data-testid" "testid" "[data-testid=\"" "\"]" ++
  optEntry n.attributes "aria-label" "aria" "[aria-label=\"" "\"]" ++
  optEntry n.attributes "placeholder" "placeholder" "[placeholder=\"" "\"]" ++
  optEntry n.attributes "name" "name" "[name=\"" "\"]" ++
  (if pyUpper n.node_name = "A" && pyGetD n.attributes "href" "" != "" then
    let href := stripHref (pyGetD n.attributes "href" "")
    if href != "" then
      [("href", "a[href*=\"" ++ href ++ "\"]"),
       ("href_xpath", "//a[contains(@href, \x27" ++ href ++ "\x27)]")]
    else []
  else []) ++
  (if n.ax_name != "" then [("text", n.ax_name)] else []) ++
  (let parts := xpathAttrParts n.attributes
   if !parts.isEmpty then
     [("xpath", "//" ++ pyLower n.node_name ++ "[" ++
        String.intercalate " and " parts ++ "]")]
   else [])

/-! ## `DOMSerializer` (dom/service.py) -/

/-- First present-and-non-empty test-id attribute, if any. -/
def firstTestAttrPart (attrs : List (String × String)) : List String :=
  match ["data-testid", "data-cy", "data-test", "data-selenium"].find?
      (fun k => pyGetD attrs k "" != "") with
  | some k => [k ++ "=\"" ++ pyGetD attrs k "" ++ "\""]
  | none => []

/-- `DOMSerializer._describe_node`: the conditional token sequence joined by
spaces. -/
def describeNode (n : DOMNode) : String :=
  let attrs := n.attributes
  let parts :=
    [pyLower n.node_name] ++
    (if n.ax_name != "" then ["\"" ++ n.ax_name ++ "\""] else []) ++
    (let role := if pyGetD attrs "role" "" != "" then pyGetD attrs "role" ""
                 else n.ax_role
     if role != "" && pyUpper n.node_name = "DIV" then ["role=" ++ role] else []) ++
    (if pyGetD attrs "contenteditable" "" != "" then ["contenteditable"] else []) ++
    (if pyGetD attrs "type" "" != "" then ["type=" ++ pyGetD attrs "type" ""] else []) ++
    (let placeholder := if pyGetD attrs "placeholder" "" != "" then
                          pyGetD attrs "placeholder" ""
                        else pyGetD attrs "data-placeholder" ""
     if placeholder != "" then ["placeholder=\"" ++ pyTake placeholder 30 ++ "\""]
     else []) ++
    (if n.ax_name = "" && pyGetD attrs "aria-label" "" != "" then
      ["\"" ++ pyGetD attrs "aria-label" "" ++ "\""]
    else []) ++
    (if pyGetD attrs "required" "" != "" then ["required"] else []) ++
    (if pyGetD attrs "pattern" "" != "" then
      ["pattern=\"" ++ pyTake (pyGetD attrs "pattern" "") 20 ++ "...\""]
    else []) ++
    (if pyGetD attrs "min" "" != "" then ["min=" ++ pyGetD attrs "min" ""] else []) ++
    (if pyGetD attrs "max" "" != "" then ["max=" ++ pyGetD attrs "max" ""] else []) ++
    (if pyGetD attrs "minlength" "" != "" then
      ["minlen=" ++ pyGetD attrs "minlength" ""] else []) ++
    (if pyGetD attrs "maxlength" "" != "" then
      ["maxlen=" ++ pyGetD attrs "maxlength" ""] else []) ++
    (if pyGetD attrs "step" "" != "" then ["step=" ++ pyGetD attrs "step" ""] else []) ++
    (if pyGetD attrs "inputmode" "" != "" then
      ["inputmode=" ++ pyGetD attrs "inputmode" ""] else []) ++
    (let ac := pyGetD attrs "autocomplete" ""
     if ac != "" && ac != "on" && ac != "off" then ["autocomplete=" ++ ac] else []) ++
    (if pyGetD attrs "accept" "" != "" then
      ["accept=" ++ pyTake (pyGetD attrs "accept" "") 20] else []) ++
    (if pyGetD attrs "multiple" "" != "" then ["multiple"] else []) ++
    firstTestAttrPart attrs ++
    (if pyHasKey attrs "disabled" then ["disabled"] else []) ++
    (if pyHasKey attrs "readonly" then ["readonly"] else [])
  String.intercalate " " parts

/-- One `selectorMap` entry, as built by `DOMSerializer.serialize`. -/
structure SelectorEntry where
  backend_node_id : Int
  selectors : List (String × String)
  tag : String
  attributes : List (String × String)
deriving DecidableEq, Repr

/-- `SerializedDOM` (the `scroll_info` the service fills in afterwards is not
touched by any claim and is left out). -/
structure SerializedDOM where
  text : String
  selector_map : List (Int × SelectorEntry)
  element_count : Nat
deriving DecidableEq, Repr

/-- The `selectorMap` entry for one node. -/
def mkSelectorEntry (n : DOMNode) : SelectorEntry :=
  ⟨n.backend_node_id, SelectorGenerator.generate n, n.node_name, n.attributes⟩

/-- The `for idx, node in enumerate(interactive_nodes)` loop of
`DOMSerializer.serialize`: text lines and selector-map entries. -/
def serializeLoop : Nat → List DOMNode → List String × List (Int × SelectorEntry)
  | _, [] => ([], [])
  | idx, n :: rest =>
      let (ls, m) := serializeLoop (idx + 1) rest
      (("[" ++ toString idx ++ "] " ++ describeNode n) :: ls,
       ((idx : Int), mkSelectorEntry n) :: m)

/-- `DOMSerializer.serialize`: filter to visible and interactive nodes, index
them densely in order, build text and the selector map. -/
def DOMSerializer.serialize (nodes : List DOMNode) : SerializedDOM :=
  let interactive := nodes.filter (fun n => n.is_visible && n.is_interactive)
  let lm := serializeLoop 0 interactive
  ⟨String.intercalate "\n" lm.1, lm.2, interactive.length⟩

/-! ## `DomService._build_tree` (dom/service.py) -/

/-- The flat node arrays of a `DOMSnapshot.captureSnapshot` document. -/
structure SnapshotNodes where
  nodeName : List Int
  backendNodeId : List Int
  parentIndex : List Int
  attributes : List (List Int)
deriving DecidableEq, Repr

/-- The layout sub-structure, indexed by its own node-index list. -/
structure SnapshotLayout where
  nodeIndex : List Int
  bounds : List (List ℚ)
deriving DecidableEq, Repr

/-- One snapshot document. -/
structure SnapshotDocument where
  nodes : SnapshotNodes
  layout : SnapshotLayout
deriving DecidableEq, Repr

/-- A captured snapshot: documents plus the shared string table. -/
structure DOMSnapshot where
  documents : List SnapshotDocument
  strings : List String
deriving DecidableEq, Repr

/-- One accessibility-tree node (name/role already projected to their
`.get("value", "")` strings). -/
structure AXNode where
  backendDOMNodeId : Option Int
  name : String
  role : String
deriving DecidableEq, Repr

/-- `strings[idx] if 0 <= idx < len(strings) else ""`. -/
def strLookup (strings : List String) (idx : Int) : String :=
  if 0 ≤ idx ∧ idx < strings.length then strings.getD idx.toNat "" else ""

/-- The AX map lookup: dict comprehension keyed on truthy
`backendDOMNodeId` (later entries win), then `.get(backend_id)`. -/
def axLookup (axNodes : List AXNode) (bid : Int) : Option AXNode :=
  ((axNodes.filter (fun a =>
      match a.backendDOMNodeId with
      | some b => b != 0
      | none => false)).reverse).find? (fun a => a.backendDOMNodeId = some bid)

/-- The flat `[name_idx, val_idx, ...]` attribute list as index pairs. -/
def attrIdxPairs : List Int → List (Int × Int)
  | a :: b :: rest => (a, b) :: attrIdxPairs rest
  | _ => []

/-- The node-name skip list of `_build_tree`, exactly as written in the
source (note the lowercase `"#text"` / `"#comment"` entries, compared
against an upper-cased node name). -/
def skippedNodeNames : List String :=
  ["#text", "#comment", "SCRIPT", "STYLE", "META", "LINK", "HEAD"]

/-- Bounding-box join: position of `i` in the layout's own node-index list,
then the bounds row, kept only when it has at least four entries. -/
def bboxFor (layout : SnapshotLayout) (i : Nat) : Option (List (String × ℚ)) :=
  match layout.nodeIndex.findIdx? (fun x => x = (i : Int)) with
  | some li =>
      match layout.bounds[li]? with
      | some b =>
          if b.length ≥ 4 then
            some [("x", b.getD 0 0), ("y", b.getD 1 0),
                  ("width", b.getD 2 0), ("height", b.getD 3 0)]
          else none
      | none => none
  | none => none

/-- The `for i, backend_id in enumerate(backend_ids)` loop of
`_build_tree`. -/
def buildTreeLoop (strings : List String) (doc : SnapshotDocument)
    (ax : List AXNode) : List (Nat × Int) → List DOMNode
  | [] => []
  | (i, backendId) :: rest =>
      let restNodes := buildTreeLoop strings doc ax rest
      if backendId = 0 then restNodes
      else
        let nameIdx := doc.nodes.nodeName.getD i (-1)
        let nodeName := strLookup strings nameIdx
        if skippedNodeNames.contains (pyUpper nodeName) then restNodes
        else
          let attrDict :=
            match doc.nodes.attributes[i]? with
            | some attrList =>
                (attrIdxPairs attrList).foldl
                  (fun d p => pyDictInsert d (strLookup strings p.1) (strLookup strings p.2)) []
            | none => []
          let axn := axLookup ax backendId
          let node : DOMNode :=
            { backend_node_id := backendId
              node_name := nodeName
              attributes := attrDict
              bounding_box := bboxFor doc.layout i
              ax_name := match axn with | some a => a.name | none => ""
              ax_role := match axn with | some a => a.role | none => ""
              parent_index := doc.nodes.parentIndex.getD i (-1) }
          node :: restNodes

/-- `DomService._build_tree`: fuse snapshot, AX tree and layout into the
enriched node list. -/
def DomService.buildTree (snapshot : DOMSnapshot) (ax : List AXNode) :
    List DOMNode :=
  match snapshot.documents with
  | [] => []
  | doc :: _ => buildTreeLoop snapshot.strings doc ax doc.nodes.backendNodeId.enum

/-! ## `Element._find_best_click_point` (browser/element.py) -/

/-- A content quad: the flat coordinate list the protocol returns
(x0, y0, x1, y1, x2, y2, x3, y3 for a true quad). -/
abbrev Quad := List ℚ

/-- Minimum x over the first four vertices. -/
def quadMinX (q : Quad) : ℚ :=
  min (min (min (q.getD 0 0) (q.getD 2 0)) (q.getD 4 0)) (q.getD 6 0)

/-- Maximum x over the first four vertices. -/
def quadMaxX (q : Quad) : ℚ :=
  max (max (max (q.getD 0 0) (q.getD 2 0)) (q.getD 4 0)) (q.getD 6 0)

/-- Minimum y over the first four vertices. -/
def quadMinY (q : Quad) : ℚ :=
  min (min (min (q.getD 1 0) (q.getD 3 0)) (q.getD 5 0)) (q.getD 7 0)

/-- Maximum y over the first four vertices. -/
def quadMaxY (q : Quad) : ℚ :=
  max (max (max (q.getD 1 0) (q.getD 3 0)) (q.getD 5 0)) (q.getD 7 0)

/-- The "skip if completely outside viewport" test of the quad loop. -/
def completelyOutside (vw vh : ℚ) (q : Quad) : Bool :=
  decide (quadMaxX q < 0) || decide (quadMaxY q < 0) ||
  decide (quadMinX q > vw) || decide (quadMinY q > vh)

/-- `int((visible_max_x - visible_min_x) * (visible_max_y - visible_min_y))`:
the viewport-clipped area, truncated to an integer. -/
def visibleAreaInt (vw vh : ℚ) (q : Quad) : ℤ :=
  ratTrunc ((min vw (quadMaxX q) - max 0 (quadMinX q)) *
            (min vh (quadMaxY q) - max 0 (quadMinY q)))

/-- The best-quad selection loop: keep the first quad realizing each strictly
larger clipped area, skipping short quads and quads fully outside the
viewport. -/
def bestQuadLoop (vw vh : ℚ) : List Quad → Option Quad × ℤ → Option Quad × ℤ
  | [], acc => acc
  | q :: rest, acc =>
      if q.length < 8 then bestQuadLoop vw vh rest acc
      else if completelyOutside vw vh q then bestQuadLoop vw vh rest acc
      else
        let va := visibleAreaInt vw vh q
        if va > acc.2 then bestQuadLoop vw vh rest (some q, va)
        else bestQuadLoop vw vh rest acc

/-- The x-entries of a flat coordinate list (indices 0, 2, 4, ...). -/
def evenEntries : List ℚ → List ℚ
  | [] => []
  | [x] => [x]
  | x :: _ :: rest => x :: evenEntries rest

/-- The y-entries of a flat coordinate list (indices 1, 3, 5, ...). -/
def oddEntries : List ℚ → List ℚ
  | [] => []
  | [_] => []
  | _ :: y :: rest => y :: oddEntries rest

/-- Mean of the quad's vertices, clamped into `[0, viewport - 1]`, truncated
to integer pixel coordinates. -/
def clampCentroid (vw vh : ℚ) (q : Quad) : ℤ × ℤ :=
  let xs := evenEntries q
  let ys := oddEntries q
  let cx := xs.sum / (xs.length : ℚ)
  let cy := ys.sum / (ys.length : ℚ)
  (ratTrunc (max 0 (min (vw - 1) cx)), ratTrunc (max 0 (min (vh - 1) cy)))

/-- `Element._find_best_click_point`. -/
def findBestClickPoint (quads : List Quad) (vw vh : ℚ) : ℤ × ℤ :=
  match bestQuadLoop vw vh quads (none, 0) with
  | (some bq, _) => clampCentroid vw vh bq
  | (none, _) =>
      match quads with
      | [] => (ratTrunc (vw / 2), ratTrunc (vh / 2))
      | q0 :: _ =>
          if q0.length < 8 then (ratTrunc (vw / 2), ratTrunc (vh / 2))
          else clampCentroid vw vh q0

/-! ## `ActionResult` (tools/registry.py) and `with_retry` (tools/actions.py) -/

/-- Result of an action execution (the free-form `data` payload, which no
claim constrains, is not modeled). -/
structure ActionResult where
  success : Bool
  message : String
  error : Option String
deriving DecidableEq, Repr

/-- `ActionResult.ok(message)`. -/
def ActionResult.ok (message : String) : ActionResult := ⟨true, message, none⟩

/-- `ActionResult.fail(error)`. -/
def ActionResult.fail (error : String) : ActionResult := ⟨false, "", some error⟩

/-- One attempt of the wrapped action: a returned `ActionResult` or a raised
exception (caught by `with_retry`). -/
inductive AttemptOutcome where
  | res (r : ActionResult)
  | exc (msg : String)
deriving DecidableEq, Repr

/-- `DEFAULT_MAX_RETRIES = 2`. -/
def DEFAULT_MAX_RETRIES : Nat := 2

/-- `DEFAULT_RETRY_DELAY = 0.5` seconds. -/
def DEFAULT_RETRY_DELAY : ℚ := 1 / 2

/-- The fixed transient-error substrings of `with_retry`. -/
def retryableErrors : List String :=
  ["not visible", "failed to resolve", "no geometry found", "timed out"]

/-- `any(err in error_msg.lower() for err in retryable_errors)`. -/
def isRetryableError (errorMsg : String) : Bool :=
  retryableErrors.any (fun e => pyIn e (pyLower errorMsg))

/-- The `last_error` recorded for one attempt. -/
def outcomeLastError : AttemptOutcome → Option String
  | .res r => r.error
  | .exc m => some m

/-- The aggregated failure message built after the loop exhausts. -/
def aggregateFailMsg (maxRetries : Nat) (ctx : String) (lastError : Option String) :
    String :=
  let d := "Failed after " ++ toString (maxRetries + 1) ++ " attempts"
  let d2 := if ctx ≠ "" then d ++ " on " ++ ctx else d
  if (lastError.getD "") ≠ "" then d2 ++ ": " ++ lastError.getD "" else d2

/-- The `for attempt in range(max_retries + 1)` loop of `with_retry`.
Returns the result, the list of backoff waits performed, and the number of
attempts of the wrapped action that were made. The fuel argument starts at
`max_retries + 1` and never runs out before the loop exits. -/
def withRetryGo (fn : Nat → AttemptOutcome) (maxRetries : Nat) (delay : ℚ)
    (ctx : String) : Nat → Nat → Option String → ActionResult × List ℚ × Nat
  | 0, _, lastError =>
      (ActionResult.fail (aggregateFailMsg maxRetries ctx lastError), [], 0)
  | fuel + 1, attempt, _ =>
      let proceed := fun (newLast : Option String) =>
        if attempt < maxRetries then
          let rest := withRetryGo fn maxRetries delay ctx fuel (attempt + 1) newLast
          (rest.1, delay * 2 ^ attempt :: rest.2.1, rest.2.2 + 1)
        else
          (ActionResult.fail (aggregateFailMsg maxRetries ctx newLast), [], 1)
      match fn attempt with
      | .res r =>
          if r.success then (r, [], 1)
          else if !isRetryableError (r.error.getD "") then (r, [], 1)
          else proceed r.error
      | .exc m => proceed (some m)

/-- `with_retry(action_fn, max_retries, delay, element_context)`. The unused
`lastError` accumulator starts at `None`. -/
def with_retry (fn : Nat → AttemptOutcome) (maxRetries : Nat) (delay : ℚ)
    (ctx : String) : ActionResult × List ℚ × Nat :=
  withRetryGo fn maxRetries delay ctx (maxRetries + 1) 0 none

/-! ## The index-taking actions (tools/actions.py) -/

/-- `index not in dom_state.selector_map` resolved by key lookup. -/
def lookupSelectorMap (m : List (Int × SelectorEntry)) (i : Int) :
    Option SelectorEntry :=
  match m with
  | [] => none
  | (k, e) :: rest => if k = i then some e else lookupSelectorMap rest i

/-- `f"element {index} ({element_info.get('tag', 'unknown')})"`. -/
def elementContext (index : Int) (info : SelectorEntry) : String :=
  "element " ++ toString index ++ " (" ++ info.tag ++ ")"

/-- The `click` action. The underlying `element.click()` per attempt is the
`browser` oracle; `_do_click` converts its exception into a failed result. -/
def Actions.click (index : Int) (dom : SerializedDOM)
    (browser : Nat → Except String Unit) : ActionResult × List ℚ × Nat :=
  match lookupSelectorMap dom.selector_map index with
  | none => (ActionResult.fail ("Invalid element index: " ++ toString index), [], 0)
  | some info =>
      with_retry (fun attempt =>
          match browser attempt with
          | .ok _ => .res (ActionResult.ok ("Clicked element " ++ toString index))
          | .error e => .res (ActionResult.fail ("Click failed: " ++ e)))
        DEFAULT_MAX_RETRIES DEFAULT_RETRY_DELAY (elementContext index info)

/-- The success message of `type_text`. -/
def typeTextMsg (text : String) (index : Int) : String :=
  "Typed \x27" ++ pyTake text 20 ++ (if text.length > 20 then "..." else "")
    ++ "\x27 into element " ++ toString index

/-- The `type_text` action; the `browser` oracle is `element.fill(text)` per
attempt. -/
def Actions.type_text (index : Int) (text : String) (dom : SerializedDOM)
    (browser : Nat → Except String Unit) : ActionResult × List ℚ × Nat :=
  match lookupSelectorMap dom.selector_map index with
  | none => (ActionResult.fail ("Invalid element index: " ++ toString index), [], 0)
  | some info =>
      with_retry (fun attempt =>
          match browser attempt with
          | .ok _ => .res (ActionResult.ok (typeTextMsg text index))
          | .error e => .res (ActionResult.fail ("Type failed: " ++ e)))
        DEFAULT_MAX_RETRIES DEFAULT_RETRY_DELAY (elementContext index info)

/-- The `hover` action; the `browser` oracle is
`element.scroll_into_view(); element.hover()` per attempt. -/
def Actions.hover (index : Int) (dom : SerializedDOM)
    (browser : Nat → Except String Unit) : ActionResult × List ℚ × Nat :=
  match lookupSelectorMap dom.selector_map index with
  | none => (ActionResult.fail ("Invalid element index: " ++ toString index), [], 0)
  | some info =>
      with_retry (fun attempt =>
          match browser attempt with
          | .ok _ => .res (ActionResult.ok ("Hovered element " ++ toString index))
          | .error e => .res (ActionResult.fail ("Hover failed: " ++ e)))
        DEFAULT_MAX_RETRIES DEFAULT_RETRY_DELAY (elementContext index info)

/-- The `select_option` action (no retry wrapper); the `browser` oracle is
`element.scroll_into_view(); element.select_option(value)`, returning the
selected option's text. The second component counts underlying browser
interactions. -/
def Actions.select_option (index : Int) (value : String) (dom : SerializedDOM)
    (browser : String → Except String String) : ActionResult × Nat :=
  match lookupSelectorMap dom.selector_map index with
  | none => (ActionResult.fail ("Invalid element index: " ++ toString index), 0)
  | some _ =>
      match browser value with
      | .ok txt =>
          (ActionResult.ok ("Selected \x27" ++ txt ++ "\x27 from dropdown "
            ++ toString index), 1)
      | .error e => (ActionResult.fail ("Select option failed: " ++ e), 1)

/-- The `focus` action (no retry wrapper); the `browser` oracle is
`element.scroll_into_view(); element.focus()`. -/
def Actions.focus (index : Int) (dom : SerializedDOM)
    (browser : Except String Unit) : ActionResult × Nat :=
  match lookupSelectorMap dom.selector_map index with
  | none => (ActionResult.fail ("Invalid element index: " ++ toString index), 0)
  | some _ =>
      match browser with
      | .ok _ => (ActionResult.ok ("Focused element " ++ toString index), 1)
      | .error e => (ActionResult.fail ("Focus failed: " ++ e), 1)

/-! ## `Element.click` (browser/element.py) as a trace-producing function -/

/-- The protocol environment one `Element.click()` call can touch, as
oracles: each field is the outcome of the corresponding protocol
interaction. -/
structure ClickEnv where
  resolveStyleObj : Except String (Option Unit)
  styleValue : Except String (Option String)
  layoutMetrics : Except String (ℚ × ℚ)
  contentQuads1 : Except String (List Quad)
  boxModelContent : Except String (List ℚ)
  boundingRect : Except String (Option (ℚ × ℚ × ℚ × ℚ))
  scrollIfNeeded : Except String Unit
  jsScroll : Except String Unit
  contentQuads2 : Except String (List Quad)
  hitTarget : ℤ → ℤ → Except String (Bool × String)
  dispatch : ℤ → ℤ → Except String Unit
  jsClick : Except String Unit

/-- `Element._check_pointer_events`: `False` only when the node resolves and
its computed `pointer-events` style is `"none"`; any failure counts as
clickable. -/
def checkPointerEvents (env : ClickEnv) : Bool :=
  match env.resolveStyleObj with
  | .error _ => true
  | .ok none => true
  | .ok (some _) =>
      match env.styleValue with
      | .error _ => true
      | .ok v => (v.getD "auto") != "none"

/-- The externally visible steps of one `Element.click()` call. -/
inductive ClickStep where
  | pointerCheck
  | geometryQuery
  | scrolled
  | reQuery
  | hitCheck
  | mouseDispatch
  | scriptedClick
deriving DecidableEq, Repr

/-- `Element.click()`: pointer-events gate, three-strategy geometry
resolution, scroll, re-resolution, hit-target verification, then physical
dispatch with scripted-click fallback. Returns the raised-or-ok outcome and
the step trace. -/
def elementClick (env : ClickEnv) : Except String Unit × List ClickStep :=
  if !checkPointerEvents env then
    (env.jsClick, [.pointerCheck, .scriptedClick])
  else
    let vp := match env.layoutMetrics with
      | .ok p => p
      | .error _ => ((1920 : ℚ), (1080 : ℚ))
    let quads1 : List Quad := match env.contentQuads1 with
      | .ok qs => qs
      | .error _ => []
    let quads2 := if quads1.isEmpty then
        match env.boxModelContent with
        | .ok content => if content.length ≥ 8 then [content] else []
        | .error _ => []
      else quads1
    let quads3 := if quads2.isEmpty then
        match env.boundingRect with
        | .ok (some (x, y, w, h)) =>
            if w != 0 && h != 0 then [[x, y, x + w, y, x + w, y + h, x, y + h]]
            else []
        | .ok none => []
        | .error _ => []
      else quads2
    if quads3.isEmpty then
      (env.jsClick, [.pointerCheck, .geometryQuery, .scriptedClick])
    else
      let p1 := findBestClickPoint quads3 vp.1 vp.2
      match env.scrollIfNeeded, env.jsScroll with
      | .error _, .error e =>
          ((.error e : Except String Unit), [.pointerCheck, .geometryQuery, .scrolled])
      | _, _ =>
        let p2 := match env.contentQuads2 with
          | .ok qs => if !qs.isEmpty then findBestClickPoint qs vp.1 vp.2 else p1
          | .error _ => p1
        let hit := match env.hitTarget p2.1 p2.2 with
          | .ok pr => pr
          | .error _ => (true, "")
        if !hit.1 then
          (env.jsClick,
           [.pointerCheck, .geometryQuery, .scrolled, .reQuery, .hitCheck,
            .scriptedClick])
        else
          match env.dispatch p2.1 p2.2 with
          | .ok _ =>
              ((.ok () : Except String Unit),
               [.pointerCheck, .geometryQuery, .scrolled, .reQuery, .hitCheck,
                .mouseDispatch])
          | .error _ =>
              (env.jsClick,
               [.pointerCheck, .geometryQuery, .scrolled, .reQuery, .hitCheck,
                .mouseDispatch, .scriptedClick])

/-- The per-attempt oracle `Actions.click` sees when the element's click is
`elementClick env`. -/
def clickOracle (env : ClickEnv) : Nat → Except String Unit :=
  fun _ => (elementClick env).1

/-! ## Helper lemmas -/

theorem isPrefixOf_append_self (l r : List Char) : l.isPrefixOf (l ++ r) = true := by
  induction l with
  | nil => cases r <;> rfl
  | cons a t ih => simp [List.isPrefixOf, ih]

theorem listContainsSub_of_prefix (hay needle : List Char)
    (h : needle.isPrefixOf hay = true) : listContainsSub hay needle = true := by
  cases hay with
  | nil =>
      cases needle with
      | nil => rfl
      | cons b t => simp [List.isPrefixOf] at h
  | cons a t => simp [listContainsSub, h]

theorem pyIn_prefix (p rest : String) : pyIn p (p ++ rest) = true := by
  unfold pyIn
  rw [String.data_append]
  exact listContainsSub_of_prefix _ _ (isPrefixOf_append_self _ _)

/-! ## C7: visibility is exactly a present box with positive dimensions -/

/-- C7: for every node, `is_visible` is true iff a bounding box is present
with strictly positive width and height; in particular it is false whenever
the box is absent, and false whenever either dimension is zero, whatever the
other dimension is. -/
theorem is_visible_iff_positive_box (n : DOMNode) :
    (n.is_visible = true ↔ ∃ bb, n.bounding_box = some bb ∧
      0 < pyGetD bb "width" 0 ∧ 0 < pyGetD bb "height" 0) ∧
    (n.bounding_box = none → n.is_visible = false) ∧
    (∀ bb, n.bounding_box = some bb →
      pyGetD bb "width" 0 = 0 ∨ pyGetD bb "height" 0 = 0 → n.is_visible = false) := by
  refine ⟨?_, ?_, ?_⟩
  · unfold DOMNode.is_visible
    cases hbb : n.bounding_box with
    | none => simp
    | some bbox =>
        cases bbox with
        | nil => simp [pyGetD, pyGet]
        | cons p rest => simp [List.isEmpty]
  · intro h
    unfold DOMNode.is_visible
    rw [h]
  · intro bb hbb hzero
    unfold DOMNode.is_visible
    rw [hbb]
    rcases hzero with h0 | h0 <;>
      cases bb <;> simp [List.isEmpty, h0]

/-- C7 witness: a concrete visible node, a boxless node, and a node with a
zero dimension. -/
theorem is_visible_iff_positive_box_witness :
    DOMNode.is_visible ⟨1, "DIV", [], none, "", "", -1⟩ = false ∧
    DOMNode.is_visible
      ⟨2, "DIV", [], some [("x", 0), ("y", 0), ("width", 7), ("height", 0)],
       "", "", -1⟩ = false ∧
    DOMNode.is_visible
      ⟨3, "DIV", [], some [("x", 0), ("y", 0), ("width", 7), ("height", 5)],
       "", "", -1⟩ = true := by
  refine ⟨?_, ?_, ?_⟩
  · exact (is_visible_iff_positive_box _).2.1 rfl
  · exact (is_visible_iff_positive_box _).2.2 _ rfl (Or.inr (by decide))
  · exact (is_visible_iff_positive_box _).1.2
      ⟨[("x", 0), ("y", 0), ("width", 7), ("height", 5)], rfl, by decide, by decide⟩

/-! ## C2: dense zero-based indices in serialization -/

theorem serializeLoop_fst_map (l : List DOMNode) :
    ∀ i, (serializeLoop i l).2.map Prod.fst = (List.range' i l.length).map Int.ofNat := by
  induction l with
  | nil => intro i; rfl
  | cons n rest ih =>
      intro i
      simp [serializeLoop, List.range', ih (i + 1)]

theorem serializeLoop_snd_map (l : List DOMNode) :
    ∀ i, (serializeLoop i l).2.map Prod.snd = l.map mkSelectorEntry := by
  induction l with
  | nil => intro i; rfl
  | cons n rest ih =>
      intro i
      simp [serializeLoop, ih (i + 1)]

theorem serializeLoop_length (l : List DOMNode) :
    ∀ i, (serializeLoop i l).2.length = l.length := by
  intro i
  have := congrArg List.length (serializeLoop_snd_map l i)
  simpa using this

/-- C2: `serialize` yields `element_count` equal to the selector map's size,
the map's keys are exactly `0..element_count-1` in order, and the entries are
those of the visible-and-interactive nodes in original order. -/
theorem serialize_selector_map_dense (nodes : List DOMNode) :
    (DOMSerializer.serialize nodes).element_count =
      (DOMSerializer.serialize nodes).selector_map.length ∧
    (DOMSerializer.serialize nodes).selector_map.map Prod.fst =
      (List.range (DOMSerializer.serialize nodes).element_count).map Int.ofNat ∧
    (DOMSerializer.serialize nodes).selector_map.map Prod.snd =
      (nodes.filter (fun n => n.is_visible && n.is_interactive)).map mkSelectorEntry := by
  unfold DOMSerializer.serialize
  refine ⟨?_, ?_, ?_⟩
  · exact (serializeLoop_length _ 0).symm
  · rw [List.range_eq_range']
    exact serializeLoop_fst_map _ 0
  · exact serializeLoop_snd_map _ 0

/-! ## C9: id selector and query-stripped href selector -/

/-- C9: a node with a non-empty `id` gets the CSS selector `#id`, and an
anchor with a non-empty `href` gets an href-substring selector built on the
href with its query string stripped; on `"/a/b?x=1"` the stripping yields
`"/a/b"`. -/
theorem selector_generator_id_href (n : DOMNode) :
    (∀ v, pyGet n.attributes "id" = some v → v ≠ "" →
      ("css_id", "#" ++ v) ∈ SelectorGenerator.generate n) ∧
    (pyUpper n.node_name = "A" → pyGetD n.attributes "href" "" ≠ "" →
      stripHref (pyGetD n.attributes "href" "") ≠ "" →
      ("href", "a[href*=\"" ++ stripHref (pyGetD n.attributes "href" "") ++ "\"]")
        ∈ SelectorGenerator.generate n) ∧
    stripHref "/a/b?x=1" = "/a/b" := by
  refine ⟨?_, ?_, by decide⟩
  · intro v hv hne
    unfold SelectorGenerator.generate
    apply List.mem_append_left
    apply List.mem_append_left
    apply List.mem_append_left
    apply List.mem_append_left
    apply List.mem_append_left
    apply List.mem_append_left
    apply List.mem_append_left
    simp [optEntry, hv, hne]
  · intro hA hhref hstrip
    unfold SelectorGenerator.generate
    apply List.mem_append_left
    apply List.mem_append_left
    simp only [hA, bne_iff_ne, ne_eq, hhref, not_false_eq_true, hstrip,
      decide_eq_true_eq, if_true, Bool.and_self, decide_True]
    apply List.mem_append_right
    simp [hhref, hstrip]

/-- C9 witness: the claim's two concrete nodes. -/
theorem selector_generator_id_href_witness :
    ("css_id", "#submit-btn") ∈ SelectorGenerator.generate
      ⟨10, "BUTTON", [("id", "submit-btn")], none, "Submit", "button", -1⟩ ∧
    ("href", "a[href*=\"/a/b\"]") ∈ SelectorGenerator.generate
      ⟨12, "a", [("href", "/a/b?x=1")], none, "", "link", -1⟩ := by
  constructor
  · exact (selector_generator_id_href _).1 "submit-btn" rfl (by decide)
  · exact (selector_generator_id_href
      ⟨12, "a", [("href", "/a/b?x=1")], none, "", "link", -1⟩).2.1
      (by decide) (by decide) (by decide)

/-! ## C1: the non-interactive-kind filter of `_build_tree` -/

/-- A snapshot with three nodes: a `DIV`, a `#text` node and a `SCRIPT`
node (string table `["#text", "SCRIPT", "DIV"]`). -/
def textFilterSnapshot : DOMSnapshot :=
  { documents := [
      { nodes := { nodeName := [2, 0, 1]
                   backendNodeId := [101, 102, 103]
                   parentIndex := [-1, 0, 0]
                   attributes := [[], [], []] }
        layout := { nodeIndex := [0], bounds := [[0, 0, 100, 50]] } }]
    strings := ["#text", "SCRIPT", "DIV"] }

/-- C1: the skip filter of `_build_tree` compares the upper-cased node name
against a list whose text/comment entries are lower-case, so a `#text` node
is NOT skipped: on a snapshot with a `DIV`, a `#text` and a `SCRIPT` node,
the built list keeps the `#text` node (while `SCRIPT` is dropped),
contradicting the claim that no text node ever appears. -/
theorem buildTree_keeps_text_nodes :
    (DomService.buildTree textFilterSnapshot []).map (fun n => n.node_name) =
      ["DIV", "#text"] ∧
    ∃ n ∈ DomService.buildTree textFilterSnapshot [], n.node_name = "#text" := by
  constructor
  · decide
  · decide

/-! ## C3: invalid indices fail distinctly, immediately, without retry -/

/-- C3: every selector-map action given an index that is not a key of the
map returns the distinct `Invalid element index` failure, with no backoff
wait and zero attempts of the underlying browser operation (so nothing is
retried and no lower-level exception can propagate); the error message
contains `"Invalid element index"` and `success` is false. -/
theorem invalid_index_fails_distinctly (index : Int) (dom : SerializedDOM)
    (h : lookupSelectorMap dom.selector_map index = none) :
    (∀ browser, Actions.click index dom browser =
      (ActionResult.fail ("Invalid element index: " ++ toString index), [], 0)) ∧
    (∀ text browser, Actions.type_text index text dom browser =
      (ActionResult.fail ("Invalid element index: " ++ toString index), [], 0)) ∧
    (∀ browser, Actions.hover index dom browser =
      (ActionResult.fail ("Invalid element index: " ++ toString index), [], 0)) ∧
    (∀ value browser, Actions.select_option index value dom browser =
      (ActionResult.fail ("Invalid element index: " ++ toString index), 0)) ∧
    (∀ browser, Actions.focus index dom browser =
      (ActionResult.fail ("Invalid element index: " ++ toString index), 0)) ∧
    pyIn "Invalid element index" ("Invalid element index: " ++ toString index) = true ∧
    (ActionResult.fail ("Invalid element index: " ++ toString index)).success = false := by
  refine ⟨?_, ?_, ?_, ?_, ?_, ?_, rfl⟩
  · intro browser; unfold Actions.click; rw [h]
  · intro text browser; unfold Actions.type_text; rw [h]
  · intro browser; unfold Actions.hover; rw [h]
  · intro value browser; unfold Actions.select_option; rw [h]
  · intro browser; unfold Actions.focus; rw [h]
  · exact pyIn_prefix "Invalid element index" (": " ++ toString index)

/-- A serialized page with exactly one interactive visible element, hence a
selector map whose only key is `0`. -/
def exampleDom : SerializedDOM :=
  DOMSerializer.serialize
    [⟨11, "DIV", [], some [("x", 0), ("y", 0), ("width", 10), ("height", 5)],
      "", "", -1⟩,
     ⟨10, "BUTTON", [("id", "submit-btn")],
      some [("x", 0), ("y", 0), ("width", 10), ("height", 5)],
      "Submit", "button", -1⟩]

/-- C3 witness: index 99 against the one-element selector map. -/
theorem invalid_index_fails_distinctly_witness :
    Actions.click 99 exampleDom (fun _ => .ok ()) =
      (ActionResult.fail ("Invalid element index: " ++ toString (99 : Int)), [], 0) ∧
    Actions.select_option 99 "v" exampleDom (fun _ => .ok "t") =
      (ActionResult.fail ("Invalid element index: " ++ toString (99 : Int)), 0) ∧
    pyIn "Invalid element index"
      ("Invalid element index: " ++ toString (99 : Int)) = true := by
  have h := invalid_index_fails_distinctly 99 exampleDom (by decide)
  exact ⟨h.1 _, h.2.2.2.1 "v" _, h.2.2.2.2.2.1⟩

/-! ## C10 and C6: stable-hash identity -/

theorem pyGet_append_of_ne {α : Type} (pre post : List (String × α)) (k0 k : String)
    (v : α) (h : k0 ≠ k) :
    pyGet (pre ++ (k0, v) :: post) k = pyGet (pre ++ post) k := by
  induction pre with
  | nil => simp [pyGet, h]
  | cons p t ih =>
      obtain ⟨pk, pv⟩ := p
      by_cases hp : pk = k <;> simp [pyGet, hp, ih]

theorem pyGet_append_not_mem {α : Type} (pre post : List (String × α)) (k : String)
    (v : α) (h : ∀ p ∈ pre, p.1 ≠ k) :
    pyGet (pre ++ (k, v) :: post) k = some v := by
  induction pre with
  | nil => simp [pyGet]
  | cons p t ih =>
      obtain ⟨pk, pv⟩ := p
      have hp : pk ≠ k := h (pk, pv) (List.mem_cons_self _ _)
      simp only [List.cons_append, pyGet, hp, if_neg]
      exact ih (fun q hq => h q (List.mem_cons_of_mem _ hq))

theorem stableClassStr_drop_dynamic (c1 c2 t : String) (ts : List String)
    (h1 : pySplitWs c1 = ts ++ [t]) (h2 : pySplitWs c2 = ts)
    (hdyn : isDynamicClassToken t = true) :
    stableClassStr c1 = stableClassStr c2 := by
  have hc1 : c1 ≠ "" := by
    intro h
    rw [h] at h1
    simp [pySplitWs, splitWsGo] at h1
  unfold stableClassStr
  by_cases hc2 : c2 = ""
  · subst hc2
    have hts : ts = [] := by
      have := h2.symm
      simpa [pySplitWs, splitWsGo] using this
    subst hts
    simp only [bne_iff_ne, ne_eq, hc1, not_false_eq_true, if_true, h1,
      List.nil_append, not_true_eq_false, if_false, List.filter_cons,
      List.filter_nil, hdyn, Bool.not_true, ite_self]
    rfl
  · simp only [bne_iff_ne, ne_eq, hc1, hc2, not_false_eq_true, if_true,
      h1, h2, List.filter_append, List.filter_cons, List.filter_nil, hdyn,
      Bool.not_true, List.append_nil]
    simp

/-- C10: `stable_hash` does not read the inline `style` attribute: two nodes
with the same tag and AX role whose attribute lists differ only in the value
of their `style` entry (all other fields arbitrary) hash identically. -/
theorem stable_hash_ignores_style (nm axr axn1 axn2 : String)
    (bid1 bid2 pi1 pi2 : Int) (bb1 bb2 : Option (List (String × ℚ)))
    (pre post : List (String × String)) (v1 v2 : String) :
    DOMNode.stable_hash ⟨bid1, nm, pre ++ ("style", v1) :: post, bb1, axn1, axr, pi1⟩ =
      DOMNode.stable_hash ⟨bid2, nm, pre ++ ("style", v2) :: post, bb2, axn2, axr, pi2⟩ := by
  have hclass : pyGetD (pre ++ ("style", v1) :: post) "class" "" =
      pyGetD (pre ++ ("style", v2) :: post) "class" "" := by
    unfold pyGetD
    rw [pyGet_append_of_ne pre post "style" "class" v1 (by decide),
      pyGet_append_of_ne pre post "style" "class" v2 (by decide)]
  have hattrs :
      stableAttrs ⟨bid1, nm, pre ++ ("style", v1) :: post, bb1, axn1, axr, pi1⟩ =
      stableAttrs ⟨bid2, nm, pre ++ ("style", v2) :: post, bb2, axn2, axr, pi2⟩ := by
    unfold stableAttrs
    simp only [hclass]
    simp [List.filterMap_append, List.filterMap_cons]
  unfold DOMNode.stable_hash DOMNode.hashComponentsStr
  rw [hattrs]

/-- C6: adding a dynamic-state class token (here in full generality: a class
attribute whose token list extends the other's by one token matching a
dynamic pattern) leaves `stable_hash` unchanged, while the claim's concrete
non-dynamic class change (`"btn primary"` vs `"btn secondary"`) changes the
hash. -/
theorem stable_hash_class_dynamics :
    (∀ (nm axr axn1 axn2 : String) (bid1 bid2 pi1 pi2 : Int)
       (bb1 bb2 : Option (List (String × ℚ)))
       (pre post : List (String × String)) (c1 c2 t : String) (ts : List String),
       (∀ p ∈ pre, p.1 ≠ "class") →
       pySplitWs c1 = ts ++ [t] →
       pySplitWs c2 = ts →
       isDynamicClassToken t = true →
       DOMNode.stable_hash ⟨bid1, nm, pre ++ ("class", c1) :: post, bb1, axn1, axr, pi1⟩ =
         DOMNode.stable_hash ⟨bid2, nm, pre ++ ("class", c2) :: post, bb2, axn2, axr, pi2⟩) ∧
    DOMNode.stable_hash ⟨1, "BUTTON", [("class", "btn primary")], none, "", "button", -1⟩ ≠
      DOMNode.stable_hash ⟨1, "BUTTON", [("class", "btn secondary")], none, "", "button", -1⟩ := by
  constructor
  · intro nm axr axn1 axn2 bid1 bid2 pi1 pi2 bb1 bb2 pre post c1 c2 t ts
      hpre h1 h2 hdyn
    have hg1 : pyGetD (pre ++ ("class", c1) :: post) "class" "" = c1 := by
      unfold pyGetD
      rw [pyGet_append_not_mem pre post "class" c1 hpre]
      rfl
    have hg2 : pyGetD (pre ++ ("class", c2) :: post) "class" "" = c2 := by
      unfold pyGetD
      rw [pyGet_append_not_mem pre post "class" c2 hpre]
      rfl
    have hscs : stableClassStr c1 = stableClassStr c2 :=
      stableClassStr_drop_dynamic c1 c2 t ts h1 h2 hdyn
    have hattrs :
        stableAttrs ⟨bid1, nm, pre ++ ("class", c1) :: post, bb1, axn1, axr, pi1⟩ =
        stableAttrs ⟨bid2, nm, pre ++ ("class", c2) :: post, bb2, axn2, axr, pi2⟩ := by
      unfold stableAttrs
      simp only [hg1, hg2, hscs]
      simp [List.filterMap_append, List.filterMap_cons]
    unfold DOMNode.stable_hash DOMNode.hashComponentsStr
    rw [hattrs]
  · decide

/-- C6 witness: `class="btn hover"` and `class="btn"` hash identically. -/
theorem stable_hash_class_dynamics_witness :
    DOMNode.stable_hash ⟨1, "BUTTON", [("class", "btn hover")], none, "", "button", -1⟩ =
      DOMNode.stable_hash ⟨1, "BUTTON", [("class", "btn")], none, "", "button", -1⟩ :=
  stable_hash_class_dynamics.1 "BUTTON" "button" "" "" 1 1 (-1) (-1) none none
    [] [] "btn hover" "btn" "hover" ["btn"]
    (by simp) (by decide) (by decide) (by decide)

/-! ## C5: retry policy of `with_retry` -/

theorem strAppend_assoc (a b c : String) : a ++ b ++ c = a ++ (b ++ c) := by
  apply String.ext
  simp [String.data_append, List.append_assoc]

/-- An attempt outcome the retry loop will retry: an exception, or a failed
result whose message matches a transient substring. -/
def isRetryableOutcome : AttemptOutcome → Bool
  | .res r => !r.success && isRetryableError (r.error.getD "")
  | .exc _ => true

theorem withRetryGo_succ (fn : Nat → AttemptOutcome) (maxR : Nat) (delay : ℚ)
    (ctx : String) (fuel attempt : Nat) (le : Option String) :
    withRetryGo fn maxR delay ctx (fuel + 1) attempt le =
      (match fn attempt with
       | .res r =>
           if r.success then (r, [], 1)
           else if !isRetryableError (r.error.getD "") then (r, [], 1)
           else if attempt < maxR then
             let rest := withRetryGo fn maxR delay ctx fuel (attempt + 1) r.error
             (rest.1, delay * 2 ^ attempt :: rest.2.1, rest.2.2 + 1)
           else (ActionResult.fail (aggregateFailMsg maxR ctx r.error), [], 1)
       | .exc m =>
           if attempt < maxR then
             let rest := withRetryGo fn maxR delay ctx fuel (attempt + 1) (some m)
             (rest.1, delay * 2 ^ attempt :: rest.2.1, rest.2.2 + 1)
           else (ActionResult.fail (aggregateFailMsg maxR ctx (some m)), [], 1)) := by
  rfl

theorem withRetryGo_exhaust (fn : Nat → AttemptOutcome) (maxR : Nat) (delay : ℚ)
    (ctx : String) :
    ∀ (f attempt : Nat) (le : Option String), attempt + f = maxR →
    (∀ k, attempt ≤ k → k ≤ maxR → isRetryableOutcome (fn k) = true) →
    withRetryGo fn maxR delay ctx (f + 1) attempt le =
      (ActionResult.fail (aggregateFailMsg maxR ctx (outcomeLastError (fn maxR))),
       (List.range' attempt f).map (fun a => delay * 2 ^ a), f + 1) := by
  intro f
  induction f with
  | zero =>
      intro attempt le hsum hall
      have ha : attempt = maxR := by omega
      subst ha
      have hret := hall attempt le_rfl (le_of_eq hsum)
      rw [withRetryGo_succ]
      cases hfn : fn attempt with
      | res r =>
          rw [hfn] at hret
          simp only [isRetryableOutcome, Bool.and_eq_true, Bool.not_eq_true'] at hret
          simp [hret.1, hret.2, outcomeLastError, List.range']
      | exc m =>
          simp [outcomeLastError, List.range']
  | succ g ih =>
      intro attempt le hsum hall
      have hlt : attempt < maxR := by omega
      have hret := hall attempt le_rfl (by omega)
      rw [withRetryGo_succ]
      cases hfn : fn attempt with
      | res r =>
          rw [hfn] at hret
          simp only [isRetryableOutcome, Bool.and_eq_true, Bool.not_eq_true'] at hret
          have hrest2 := ih (attempt + 1) r.error (by omega)
            (fun k hk1 hk2 => hall k (by omega) hk2)
          simp [hret.1, hret.2, hlt, hrest2, List.range']
      | exc m =>
          have hrest2 := ih (attempt + 1) (some m) (by omega)
            (fun k hk1 hk2 => hall k (by omega) hk2)
          simp [hlt, hrest2, List.range']

/-- C5: the retry wrapper's defaults are 2 retries at a half-second base
delay; on the first attempt returning a failure whose message matches none of
the fixed transient substrings it returns that failure immediately, with no
backoff wait and a single attempt; when every attempt is a retryable failure
it performs exactly the exponential backoff waits `delay * 2^k` for
`k = 0..maxRetries-1` and returns one aggregated failure built from the
element context and the last attempt's underlying error, which (for non-empty
context and error) reads
`"Failed after N attempts on <context>: <last error>"`. -/
theorem with_retry_policy :
    DEFAULT_MAX_RETRIES = 2 ∧
    DEFAULT_RETRY_DELAY = 1 / 2 ∧
    (∀ (fn : Nat → AttemptOutcome) (maxR : Nat) (delay : ℚ) (ctx : String)
       (r : ActionResult),
       fn 0 = .res r → r.success = false →
       isRetryableError (r.error.getD "") = false →
       with_retry fn maxR delay ctx = (r, [], 1)) ∧
    (∀ (fn : Nat → AttemptOutcome) (maxR : Nat) (delay : ℚ) (ctx : String),
       (∀ k, k ≤ maxR → isRetryableOutcome (fn k) = true) →
       with_retry fn maxR delay ctx =
         (ActionResult.fail (aggregateFailMsg maxR ctx (outcomeLastError (fn maxR))),
          (List.range maxR).map (fun a => delay * 2 ^ a), maxR + 1)) ∧
    (∀ (maxR : Nat) (ctx e : String), ctx ≠ "" → e ≠ "" →
       aggregateFailMsg maxR ctx (some e) =
         "Failed after " ++ toString (maxR + 1) ++ " attempts on " ++ ctx ++ ": " ++ e) := by
  refine ⟨rfl, rfl, ?_, ?_, ?_⟩
  · intro fn maxR delay ctx r hfn hsucc hretry
    unfold with_retry
    simp only [withRetryGo, hfn, hsucc, hretry]
    simp
  · intro fn maxR delay ctx hall
    unfold with_retry
    rw [withRetryGo_exhaust fn maxR delay ctx maxR 0 none (by omega)
      (fun k _ hk2 => hall k hk2)]
    rw [List.range_eq_range']
  · intro maxR ctx e hctx he
    unfold aggregateFailMsg
    simp only [hctx, he, ne_eq, not_false_eq_true, if_true, Option.getD_some]
    rw [strAppend_assoc ("Failed after " ++ toString (maxR + 1)) " attempts" " on "]
    rfl

/-- C5 witness: a permanent failure returns immediately; an always-timed-out
action exhausts the default 2 retries with waits 0.5s and 1s. -/
theorem with_retry_policy_witness :
    with_retry (fun _ => .res (ActionResult.fail "Option not found")) 2 (1 / 2) "c" =
      (ActionResult.fail "Option not found", [], 1) ∧
    with_retry (fun _ => .res (ActionResult.fail "timed out")) 2 (1 / 2)
        "element 3 (BUTTON)" =
      (ActionResult.fail
        (aggregateFailMsg 2 "element 3 (BUTTON)"
          (outcomeLastError (.res (ActionResult.fail "timed out")))),
       (List.range 2).map (fun a => (1 : ℚ) / 2 * 2 ^ a), 3) := by
  constructor
  · exact with_retry_policy.2.2.1 _ 2 (1 / 2) "c" _ rfl rfl (by decide)
  · exact with_retry_policy.2.2.2.1 (fun _ => .res (ActionResult.fail "timed out"))
      2 (1 / 2) "element 3 (BUTTON)" (fun _ _ => rfl)

/-! ## C4: best-click-point selection -/

theorem bestQuadLoop_acc_le (vw vh : ℚ) (l : List Quad) :
    ∀ (bq : Option Quad) (ba : ℤ), ba ≤ (bestQuadLoop vw vh l (bq, ba)).2 := by
  induction l with
  | nil => intro bq ba; exact le_refl _
  | cons q t ih =>
      intro bq ba
      by_cases h8 : q.length < 8
      · simpa [bestQuadLoop, h8] using ih bq ba
      · by_cases hout : completelyOutside vw vh q = true
        · simpa [bestQuadLoop, h8, hout] using ih bq ba
        · by_cases hgt : visibleAreaInt vw vh q > ba
          · simp only [bestQuadLoop, h8, hout, hgt, if_true, if_false,
              Bool.false_eq_true]
            exact le_trans (le_of_lt hgt) (ih (some q) _)
          · simpa [bestQuadLoop, h8, hout, hgt] using ih bq ba

theorem bestQuadLoop_ub (vw vh : ℚ) (l : List Quad) :
    ∀ (bq : Option Quad) (ba : ℤ) (q' : Quad), q' ∈ l → ¬ q'.length < 8 →
      completelyOutside vw vh q' = false →
      visibleAreaInt vw vh q' ≤ (bestQuadLoop vw vh l (bq, ba)).2 := by
  induction l with
  | nil => intro bq ba q' hm; exact absurd hm (List.not_mem_nil q')
  | cons q t ih =>
      intro bq ba q' hm h8' hout'
      rcases List.mem_cons.mp hm with heq | ht
      · subst heq
        simp only [bestQuadLoop, h8', if_false, hout', Bool.false_eq_true]
        by_cases hgt : visibleAreaInt vw vh q' > ba
        · simpa [hgt] using bestQuadLoop_acc_le vw vh t (some q') _
        · exact le_trans (le_of_not_lt hgt)
            (by simpa [hgt] using bestQuadLoop_acc_le vw vh t bq ba)
      · by_cases h8 : q.length < 8
        · simpa [bestQuadLoop, h8] using ih bq ba q' ht h8' hout'
        · by_cases hout : completelyOutside vw vh q = true
          · simpa [bestQuadLoop, h8, hout] using ih bq ba q' ht h8' hout'
          · by_cases hgt : visibleAreaInt vw vh q > ba
            · simpa [bestQuadLoop, h8, hout, hgt] using
                ih (some q) _ q' ht h8' hout'
            · simpa [bestQuadLoop, h8, hout, hgt] using ih bq ba q' ht h8' hout'

theorem bestQuadLoop_some (vw vh : ℚ) (l : List Quad) :
    ∀ (bq : Option Quad) (ba : ℤ) (q : Quad),
      (bestQuadLoop vw vh l (bq, ba)).1 = some q →
      (bq = some q ∧ (bestQuadLoop vw vh l (bq, ba)).2 = ba) ∨
      (q ∈ l ∧ ¬ q.length < 8 ∧ completelyOutside vw vh q = false ∧
       (bestQuadLoop vw vh l (bq, ba)).2 = visibleAreaInt vw vh q ∧
       ba < visibleAreaInt vw vh q) := by
  induction l with
  | nil => intro bq ba q h; exact Or.inl ⟨h, rfl⟩
  | cons q0 t ih =>
      intro bq ba q h
      by_cases h8 : q0.length < 8
      · rw [show bestQuadLoop vw vh (q0 :: t) (bq, ba) = bestQuadLoop vw vh t (bq, ba)
            by simp [bestQuadLoop, h8]] at h ⊢
        rcases ih bq ba q h with hl | ⟨hm, h1, h2, h3, h4⟩
        · exact Or.inl hl
        · exact Or.inr ⟨List.mem_cons_of_mem _ hm, h1, h2, h3, h4⟩
      · by_cases hout : completelyOutside vw vh q0 = true
        · rw [show bestQuadLoop vw vh (q0 :: t) (bq, ba) = bestQuadLoop vw vh t (bq, ba)
              by simp [bestQuadLoop, h8, hout]] at h ⊢
          rcases ih bq ba q h with hl | ⟨hm, h1, h2, h3, h4⟩
          · exact Or.inl hl
          · exact Or.inr ⟨List.mem_cons_of_mem _ hm, h1, h2, h3, h4⟩
        · by_cases hgt : visibleAreaInt vw vh q0 > ba
          · rw [show bestQuadLoop vw vh (q0 :: t) (bq, ba) =
                bestQuadLoop vw vh t (some q0, visibleAreaInt vw vh q0)
                by simp [bestQuadLoop, h8, hout, hgt]] at h ⊢
            rcases ih (some q0) _ q h with ⟨hl1, hl2⟩ | ⟨hm, h1, h2, h3, h4⟩
            · obtain rfl : q0 = q := Option.some.inj hl1
              refine Or.inr ⟨List.mem_cons_self _ _, h8, ?_, hl2, hgt⟩
              exact Bool.eq_false_iff.mpr hout
            · exact Or.inr ⟨List.mem_cons_of_mem _ hm, h1, h2, h3, lt_trans hgt h4⟩
          · rw [show bestQuadLoop vw vh (q0 :: t) (bq, ba) = bestQuadLoop vw vh t (bq, ba)
                by simp [bestQuadLoop, h8, hout, hgt]] at h ⊢
            rcases ih bq ba q h with hl | ⟨hm, h1, h2, h3, h4⟩
            · exact Or.inl hl
            · exact Or.inr ⟨List.mem_cons_of_mem _ hm, h1, h2, h3, h4⟩

theorem bestQuadLoop_none (vw vh : ℚ) (l : List Quad) :
    ∀ (bq : Option Quad) (ba : ℤ), (bestQuadLoop vw vh l (bq, ba)).1 = none →
      bestQuadLoop vw vh l (bq, ba) = (bq, ba) := by
  induction l with
  | nil => intro bq ba _; rfl
  | cons q0 t ih =>
      intro bq ba h
      by_cases h8 : q0.length < 8
      · rw [show bestQuadLoop vw vh (q0 :: t) (bq, ba) = bestQuadLoop vw vh t (bq, ba)
            by simp [bestQuadLoop, h8]] at h ⊢
        exact ih bq ba h
      · by_cases hout : completelyOutside vw vh q0 = true
        · rw [show bestQuadLoop vw vh (q0 :: t) (bq, ba) = bestQuadLoop vw vh t (bq, ba)
              by simp [bestQuadLoop, h8, hout]] at h ⊢
          exact ih bq ba h
        · by_cases hgt : visibleAreaInt vw vh q0 > ba
          · rw [show bestQuadLoop vw vh (q0 :: t) (bq, ba) =
                bestQuadLoop vw vh t (some q0, visibleAreaInt vw vh q0)
                by simp [bestQuadLoop, h8, hout, hgt]] at h
            have := ih (some q0) _ h
            rw [this] at h
            exact absurd h (by simp)
          · rw [show bestQuadLoop vw vh (q0 :: t) (bq, ba) = bestQuadLoop vw vh t (bq, ba)
                by simp [bestQuadLoop, h8, hout, hgt]] at h ⊢
            exact ih bq ba h

/-- C4: on a non-empty list of (length-8) quads, `_find_best_click_point`
returns the clamped vertex-mean centroid of a quad of the list whose
viewport-clipped area is maximal among quads not wholly outside the viewport
(`max 0 _` covers the fallback where every on-screen area is non-positive);
and when every quad is wholly outside the viewport it returns the first
quad's clamped centroid rather than failing. -/
theorem find_best_click_point_spec (quads : List Quad) (vw vh : ℚ)
    (hne : quads ≠ []) (hlen : ∀ q ∈ quads, q.length = 8) :
    (∃ q, q ∈ quads ∧ findBestClickPoint quads vw vh = clampCentroid vw vh q ∧
       ∀ q' ∈ quads, completelyOutside vw vh q' = false →
         visibleAreaInt vw vh q' ≤ max 0 (visibleAreaInt vw vh q)) ∧
    ((∀ q ∈ quads, completelyOutside vw vh q = true) →
      findBestClickPoint quads vw vh = clampCentroid vw vh quads.headI) := by
  match quads, hne with
  | q0 :: rest, _ =>
  have h8_0 : ¬ q0.length < 8 := by
    rw [hlen q0 (List.mem_cons_self _ _)]; omega
  cases hloop : bestQuadLoop vw vh (q0 :: rest) (none, 0) with
  | mk obq oba =>
  cases obq with
  | some q =>
      have h1 : (bestQuadLoop vw vh (q0 :: rest) (none, 0)).1 = some q := by
        rw [hloop]
      rcases bestQuadLoop_some vw vh (q0 :: rest) none 0 q h1 with
        ⟨hl, _⟩ | ⟨hm, hq8, hqout, hfin, hpos⟩
      · exact absurd hl (by simp)
      · have hfbp : findBestClickPoint (q0 :: rest) vw vh = clampCentroid vw vh q := by
          unfold findBestClickPoint
          rw [hloop]
        constructor
        · refine ⟨q, hm, hfbp, ?_⟩
          intro q' hm' hout'
          have hub := bestQuadLoop_ub vw vh (q0 :: rest) none 0 q' hm'
            (by rw [hlen q' hm']; omega) hout'
          rw [hfin] at hub
          exact le_trans hub (le_max_right _ _)
        · intro hall
          rw [hall q hm] at hqout
          exact absurd hqout (by simp)
  | none =>
      have h1 : (bestQuadLoop vw vh (q0 :: rest) (none, 0)).1 = none := by
        rw [hloop]
      have hzero := bestQuadLoop_none vw vh (q0 :: rest) none 0 h1
      have hfbp : findBestClickPoint (q0 :: rest) vw vh = clampCentroid vw vh q0 := by
        unfold findBestClickPoint
        rw [hzero]
        simp [h8_0]
      constructor
      · refine ⟨q0, List.mem_cons_self _ _, hfbp, ?_⟩
        intro q' hm' hout'
        have hub := bestQuadLoop_ub vw vh (q0 :: rest) none 0 q' hm'
          (by rw [hlen q' hm']; omega) hout'
        rw [hzero] at hub
        exact le_trans hub (le_max_left _ _)
      · intro _
        exact hfbp

/-- C4 witness: a single quad wholly outside the viewport still yields the
first quad's clamped centroid. -/
theorem find_best_click_point_spec_witness :
    findBestClickPoint [[-50, -50, -10, -50, -10, -10, -50, -10]] 100 100 =
      clampCentroid 100 100
        (([[-50, -50, -10, -50, -10, -10, -50, -10]] : List Quad).headI) :=
  (find_best_click_point_spec [[-50, -50, -10, -50, -10, -10, -50, -10]] 100 100
    (by decide) (by decide)).2 (by decide)

/-! ## C8: pointer-events none goes straight to the scripted click -/

/-- C8: when the element resolves and its computed style reports
`pointer-events: none`, `Element.click` performs no geometry work and no
mouse dispatch — its trace is exactly the pointer check followed by the
scripted click — and the click action built on it still reports
`success = true` whenever the scripted click succeeds (for any valid
selector-map index). -/
theorem pointer_events_none_scripted_click (env : ClickEnv)
    (h1 : env.resolveStyleObj = .ok (some ()))
    (h2 : env.styleValue = .ok (some "none")) :
    elementClick env = (env.jsClick, [.pointerCheck, .scriptedClick]) ∧
    ClickStep.mouseDispatch ∉ (elementClick env).2 ∧
    (env.jsClick = .ok () →
      ∀ (index : Int) (dom : SerializedDOM) (info : SelectorEntry),
        lookupSelectorMap dom.selector_map index = some info →
        (Actions.click index dom (clickOracle env)).1 =
          ActionResult.ok ("Clicked element " ++ toString index) ∧
        (Actions.click index dom (clickOracle env)).1.success = true) := by
  have hpe : checkPointerEvents env = false := by
    unfold checkPointerEvents
    rw [h1, h2]
    rfl
  have helem : elementClick env = (env.jsClick, [.pointerCheck, .scriptedClick]) := by
    unfold elementClick
    rw [hpe]
    rfl
  refine ⟨helem, ?_, ?_⟩
  · rw [helem]
    simp
  · intro hjs index dom info hlk
    have hres : (Actions.click index dom (clickOracle env)).1 =
        ActionResult.ok ("Clicked element " ++ toString index) := by
      simp only [Actions.click, with_retry, hlk, withRetryGo_succ, clickOracle,
        helem, hjs, ActionResult.ok]
      simp
    exact ⟨hres, by rw [hres]; rfl⟩

/-- A pointer-events-blocked environment whose scripted click succeeds; every
other oracle is left failing so only the scripted path could succeed. -/
def peNoneEnv : ClickEnv :=
  { resolveStyleObj := .ok (some ())
    styleValue := .ok (some "none")
    layoutMetrics := .error "x"
    contentQuads1 := .error "x"
    boxModelContent := .error "x"
    boundingRect := .error "x"
    scrollIfNeeded := .error "x"
    jsScroll := .error "x"
    contentQuads2 := .error "x"
    hitTarget := fun _ _ => .error "x"
    dispatch := fun _ _ => .error "x"
    jsClick := .ok () }

/-- C8 witness: the concrete blocked environment against the one-element
selector map. -/
theorem pointer_events_none_scripted_click_witness :
    elementClick peNoneEnv = (Except.ok (), [.pointerCheck, .scriptedClick]) ∧
    (Actions.click 0 exampleDom (clickOracle peNoneEnv)).1.success = true := by
  have h := pointer_events_none_scripted_click peNoneEnv rfl rfl
  refine ⟨h.1, ?_⟩
  have hmap : lookupSelectorMap exampleDom.selector_map 0 =
      some (mkSelectorEntry
        ⟨10, "BUTTON", [("id", "submit-btn")],
         some [("x", 0), ("y", 0), ("width", 10), ("height", 5)],
         "Submit", "button", -1⟩) := by decide
  exact (h.2.2 rfl 0 exampleDom _ hmap).2

end Heimdall
